import Mathlib

/-!
Shallow embedding of `src/xiaomi_unlock/core.py` (the core race logic of the
xiaomi-unlock-request repository): response classifiers, target-time
calculation, NTP sync, the worker fire loop and the coordinator dispatch.

Modelling conventions:
* Python JSON-like values become `PyVal`; a top-level JSON object becomes
  `PyDict` (an association list; `dict.get` takes the first binding).
* Python exceptions that the source can raise become `Except PyErr`:
  `ValueError` (raised for code 100001) and `AttributeError` (raised by
  `None.get(...)` when a nested `data` field is `null`).
* `datetime` values become `Int` microseconds on the Beijing local timeline
  (Python datetimes store whole microseconds; Asia/Shanghai has a fixed UTC
  offset, so datetime arithmetic and calendar-day truncation are exactly
  integer-microsecond arithmetic).
* The injectable `Clock` becomes a pure stream `Nat → Int` of the successive
  values returned by `synced_now()`; `sleep` does not touch the state.
* Network calls become pure streams `Nat → Except Unit PyDict` of the
  successive POST / GET outcomes (`Except.error` = transport failure or
  unparsable body). Python `while` loops become fuel-bounded recursion
  returning `Option` (`Option.none` = fuel exhausted).
-/

inductive PyVal where
  | none : PyVal
  | int : Int → PyVal
  | str : String → PyVal
  | dict : List (String × PyVal) → PyVal

abbrev PyDict := List (String × PyVal)

inductive PyErr where
  | valueError : PyErr
  | attributeError : PyErr
deriving DecidableEq, Repr

/-- Python `d.get(k, dflt)` on a genuine dict `d`: the stored value (even if
it is `None`) when the key is present, the default otherwise. -/
def lookupD (kvs : PyDict) (k : String) (dflt : PyVal) : PyVal :=
  match kvs.lookup k with
  | Option.some v => v
  | Option.none => dflt

/-- Python `v.get(k, dflt)` on an arbitrary value: raises `AttributeError`
unless `v` is a dict (in particular when `v` is `None`). -/
def PyVal.get (v : PyVal) (k : String) (dflt : PyVal) : Except PyErr PyVal :=
  match v with
  | PyVal.dict kvs => Except.ok (lookupD kvs k dflt)
  | _ => Except.error PyErr.attributeError

/-- Python `v == n` for an integer literal `n` (false on any non-int value). -/
def PyVal.eqInt (v : PyVal) (n : Int) : Bool :=
  match v with
  | PyVal.int m => m == n
  | _ => false

/-- Python `str(v)` as used inside the source's f-strings. Dicts are not
interpolated on any path the claims exercise, so they get an opaque
rendering. -/
def pyStr : PyVal → String
  | PyVal.none => "None"
  | PyVal.int n => toString n
  | PyVal.str s => s
  | PyVal.dict _ => "<dict>"

/-- Contiguous-sublist test on character lists (structural, so that the
kernel can evaluate it). -/
def listContains (needle : List Char) : List Char → Bool
  | [] => needle.isEmpty
  | c :: tl => needle.isPrefixOf (c :: tl) || listContains needle tl

/-- Python `needle in hay` for strings. -/
def pyIn (needle hay : String) : Bool :=
  listContains needle.data hay.data

/-- Python `s.lower()` (character-list form, so that the kernel can
evaluate it). -/
def pyLower (s : String) : String :=
  String.mk (s.data.map Char.toLower)

-- `MAX_RETRY_SECS = 30` (core.py line 40)
def MAX_RETRY_SECS : Nat := 30

structure StatusResult where
  eligible : Bool
  message : String
  raw : PyDict := []

structure ApplyResult where
  worker_id : Nat
  approved : Option Bool
  attempts : Nat := 0
  message : String := ""
  raw : PyDict := []

/-- Embedding of `parse_status_response` (core.py lines 175-218). The three
nested `info.get(...)` calls are evaluated eagerly, in source order, before
any branch on their values, so a `data` field that is `null` (or any
non-dict) raises `AttributeError`. -/
def parse_status_response (data : PyDict) : Except PyErr StatusResult :=
  let code := lookupD data "code" PyVal.none
  if code.eqInt 100004 then
    Except.ok ⟨false, "Token expired — get a fresh one.", data⟩
  else
    let info := lookupD data "data" (PyVal.dict [])
    match info.get "is_pass" PyVal.none with
    | Except.error e => Except.error e
    | Except.ok is_pass =>
      match info.get "button_state" PyVal.none with
      | Except.error e => Except.error e
      | Except.ok btn =>
        match info.get "deadline_format" (PyVal.str "") with
        | Except.error e => Except.error e
        | Except.ok deadline =>
          if is_pass.eqInt 1 then
            Except.ok ⟨false, "Already approved — unlock available until " ++ pyStr deadline, data⟩
          else if is_pass.eqInt 4 && btn.eqInt 1 then
            Except.ok ⟨true, "Eligible to send unlock request", data⟩
          else if is_pass.eqInt 4 && btn.eqInt 2 then
            Except.ok ⟨true, "Blocked until " ++ pyStr deadline ++ " — will try anyway", data⟩
          else if is_pass.eqInt 4 && btn.eqInt 3 then
            Except.ok ⟨true, "Account < 30 days old — will try anyway", data⟩
          else
            Except.ok ⟨false,
              "Unknown status: is_pass=" ++ pyStr is_pass ++ ", button_state=" ++ pyStr btn,
              data⟩

/-- Embedding of `parse_apply_response` (core.py lines 221-250).
`info.get("apply_result")` is evaluated before any branch on `code`, so a
`data` field that is `null` raises `AttributeError` for every code. Code
100001 raises `ValueError` ("rejected" — the caller retries). -/
def parse_apply_response (data : PyDict) : Except PyErr (String × Option Bool) :=
  let code := lookupD data "code" PyVal.none
  let info := lookupD data "data" (PyVal.dict [])
  match info.get "apply_result" PyVal.none with
  | Except.error e => Except.error e
  | Except.ok result =>
    if code.eqInt 0 && result.eqInt 1 then
      Except.ok ("Approved!", Option.some true)
    else if code.eqInt 0 && result.eqInt 3 then
      match info.get "deadline_format" (PyVal.str "?") with
      | Except.error e => Except.error e
      | Except.ok dl => Except.ok ("Quota reached until " ++ pyStr dl, Option.some false)
    else if code.eqInt 0 && result.eqInt 4 then
      match info.get "deadline_format" (PyVal.str "?") with
      | Except.error e => Except.error e
      | Except.ok dl => Except.ok ("Blocked until " ++ pyStr dl, Option.some false)
    else if code.eqInt 100001 then
      Except.error PyErr.valueError
    else if code.eqInt 100003 then
      Except.ok ("Possibly approved (100003)", Option.none)
    else
      Except.ok ("Unexpected response: code=" ++ pyStr code, Option.some false)

/-!
Time is modelled as `Int` microseconds on the Beijing local timeline (Python
`datetime` and `timedelta` store whole microseconds, and Asia/Shanghai has a
fixed UTC offset, so datetime arithmetic and calendar-day truncation are
exactly integer-microsecond arithmetic). `USEC_PER_DAY` is one day and
`retry_window_us` is `timedelta(seconds=MAX_RETRY_SECS)`.
-/

def USEC_PER_DAY : Int := 86400000000

def retry_window_us : Int := MAX_RETRY_SECS * 1000000

/-- Start of the current calendar day on the Beijing timeline:
`cur.replace(hour=0, minute=0, second=0, microsecond=0)` (core.py line 122).
`Int.emod` is nonnegative for a positive modulus, so this is flooring to a
multiple of a day also for pre-epoch instants. -/
def today_midnight (cur : Int) : Int :=
  cur - cur % USEC_PER_DAY

/-- Embedding of `calc_target_time` (core.py lines 114-132), with the
`clock.synced_now()` value passed in as `cur` and the worker offset in
milliseconds. Returns `(target_fire_time, deadline)`. -/
def calc_target_time (cur : Int) (offset_ms : Int) : Int × Int :=
  let tm := today_midnight cur
  let seconds_since_midnight := cur - tm
  let midnight := if seconds_since_midnight < retry_window_us then tm else tm + USEC_PER_DAY
  (midnight - offset_ms * 1000, midnight + retry_window_us)

-- ── NTP sync ──

structure NtpResult where
  success : Bool
  beijing_time : Option Int := Option.none
  server : String := ""
  error : String := ""

/-- `datetime.fromtimestamp(tx, utc).astimezone(BEIJING_TZ)`: same instant,
rendered on the Beijing local timeline (UTC+8, no DST). -/
def toBeijing (tx : Int) : Int := tx + 8 * 3600 * 1000000

/-- The `for server in servers` loop of `sync_ntp` (core.py lines 139-145),
with `last_err` as the accumulator. The initial accumulator is irrelevant:
the first iteration either returns or overwrites it. -/
def sync_ntp_loop (request : String → Except String Int) :
    List String → String → NtpResult
  | [], last_err => { success := false, error := last_err }
  | s :: rest, _ =>
    match request s with
    | Except.ok tx =>
      { success := true, beijing_time := Option.some (toBeijing tx), server := s }
    | Except.error e => sync_ntp_loop request rest e

/-- Embedding of `sync_ntp` (core.py lines 136-146). `request` abstracts
`ntplib.NTPClient().request(server, version=3)`: `ok` carries `resp.tx_time`,
`error` the stringified exception. The conditional error text mirrors
`last_err if servers else "No NTP servers configured"`; when `servers` is
empty the loop never runs and `last_err` is never read. -/
def sync_ntp (request : String → Except String Int) (servers : List String) : NtpResult :=
  match servers with
  | [] => { success := false, error := "No NTP servers configured" }
  | s :: rest => sync_ntp_loop request (s :: rest) ""

-- ── Worker ──

/-- Terminal outcome of one `run_worker` call: the returned `ApplyResult`
(or the uncaught Python exception), the final value of the shared stop
event, and how many network calls (POSTs plus status GETs) were issued. -/
structure WorkerFinal where
  result : Except PyErr ApplyResult
  stop : Bool
  net_calls : Nat

/-- The spin-wait loop `while clock.synced_now() < target` (core.py lines
285-286). `i` is the index of the next `synced_now()` call; the returned
index is the one the first fire-loop condition check will consume. Runs out
of fuel (`Option.none`) only if the scripted clock never reaches `target`. -/
def spin_wait (clock : Nat → Int) (target : Int) : Nat → Nat → Option Nat
  | 0, _ => Option.none
  | fuel + 1, i =>
    if clock i < target then spin_wait clock target fuel (i + 1) else Option.some (i + 1)

/-- The fire/retry loop of `run_worker` (core.py lines 309-366), including
the post-loop `stop.is_set()` check. Arguments after the fuel: `i` = next
`synced_now()` index, `p` = next POST index, `g` = next status-GET index,
then the stop flag, the `attempt` counter and the network-call counter.

Paths, mirroring the source: a transport failure on POST and a `ValueError`
from `parse_apply_response` (code 100001) are caught and retried; an
`AttributeError` from `parse_apply_response` is NOT caught (only
`except ValueError` guards it) and propagates; on the Uncertain outcome the
status GET, its body parse and `parse_status_response` all sit inside one
`except Exception` handler, so any failure there is retried. -/
def fire_loop (wid : Nat) (clock : Nat → Int) (posts gets : Nat → Except Unit PyDict)
    (deadline : Int) :
    Nat → Nat → Nat → Nat → Bool → Nat → Nat → Option WorkerFinal
  | 0, _, _, _, _, _, _ => Option.none
  | fuel + 1, i, p, g, stop, attempt, net =>
    if clock i < deadline ∧ stop = false then
      -- `fire = clock.synced_now()` consumes index i+1 (used by on_attempt only)
      match posts p with
      | Except.error _ =>
        fire_loop wid clock posts gets deadline fuel (i + 2) (p + 1) g stop (attempt + 1) (net + 1)
      | Except.ok data =>
        match parse_apply_response data with
        | Except.error PyErr.valueError =>
          fire_loop wid clock posts gets deadline fuel (i + 2) (p + 1) g stop (attempt + 1) (net + 1)
        | Except.error PyErr.attributeError =>
          Option.some ⟨Except.error PyErr.attributeError, stop, net + 1⟩
        | Except.ok (msg, Option.some true) =>
          Option.some ⟨Except.ok ⟨wid, Option.some true, attempt + 1, msg, data⟩, true, net + 1⟩
        | Except.ok (msg, Option.some false) =>
          Option.some ⟨Except.ok ⟨wid, Option.some false, attempt + 1, msg, data⟩, stop, net + 1⟩
        | Except.ok (msg, Option.none) =>
          match gets g with
          | Except.error _ =>
            fire_loop wid clock posts gets deadline fuel (i + 2) (p + 1) (g + 1) stop (attempt + 1)
              (net + 2)
          | Except.ok sdata =>
            match parse_status_response sdata with
            | Except.error _ =>
              fire_loop wid clock posts gets deadline fuel (i + 2) (p + 1) (g + 1) stop
                (attempt + 1) (net + 2)
            | Except.ok st =>
              if st.eligible = false then
                Option.some ⟨Except.ok ⟨wid,
                    if pyIn "Already approved" st.message then Option.some true else Option.none,
                    attempt + 1, msg ++ " → " ++ st.message, data⟩,
                  stop || pyIn "Already approved" st.message, net + 2⟩
              else
                fire_loop wid clock posts gets deadline fuel (i + 2) (p + 1) (g + 1) stop
                  (attempt + 1) (net + 2)
    else if stop then
      Option.some ⟨Except.ok ⟨wid, Option.none, attempt, "Stopped (another worker succeeded)", []⟩,
        stop, net⟩
    else
      Option.some ⟨Except.ok ⟨wid, Option.some false, attempt,
          "Timed out after " ++ toString MAX_RETRY_SECS ++ "s", []⟩,
        stop, net⟩

/-- Embedding of `run_worker` (core.py lines 254-366). `synced_now()` call
indices: 0 inside `calc_target_time`, 1 in the coarse-wait computation, the
spin wait starts at 2. The coarse sleep and the client construction touch no
modelled state. `spinFuel` / `loopFuel` bound the two source `while` loops. -/
def run_worker (wid : Nat) (offset_ms : Int) (clock : Nat → Int)
    (posts gets : Nat → Except Unit PyDict) (stop₀ : Bool) (dry_run : Bool)
    (spinFuel loopFuel : Nat) : Option WorkerFinal :=
  let td := calc_target_time (clock 0) offset_ms
  match spin_wait clock td.1 spinFuel 2 with
  | Option.none => Option.none
  | Option.some i =>
    if dry_run then
      Option.some ⟨Except.ok ⟨wid, Option.none, 0, "[dry-run] Skipped POST", []⟩, stop₀, 0⟩
    else
      fire_loop wid clock posts gets td.2 loopFuel i 0 0 stop₀ 0 0

-- ── Coordinator ──

/-- One dispatched worker task of `run_workers`: its id, credential,
offset and pre-generated device identity. -/
structure WorkerSpawn where
  wid : Nat
  token : String
  offset_ms : Int
  dev_id : String

/-- The dispatch structure of `run_workers` (core.py lines 369-397): the
alternating token list, one `gen_device_id()` call per token slot (`gdev n`
is the value of the n-th call, modelling the random generator), and the
`zip` of tokens, offsets and device ids into worker tasks. Python `zip`
truncates to the shortest input, so a short `offsets` list silently yields
fewer workers. -/
def run_workers_spawns (firefox chrome : String) (gdev : Nat → String)
    (offsets : List Int) : List WorkerSpawn :=
  let token_list := [firefox, chrome, firefox, chrome]
  let dev_firefox := gdev 0
  let dev_chrome := gdev 1
  let dev_ids := [dev_firefox, dev_chrome, dev_firefox, dev_chrome]
  ((token_list.zip offsets).zip dev_ids).enum.map
    (fun x => ⟨x.1 + 1, x.2.1.1, x.2.1.2, x.2.2⟩)

/-- `run_workers` itself: `asyncio.gather` over the dispatched workers,
with the per-worker behaviour abstracted by `worker` (the claims about
`run_workers` concern only the dispatch structure and the shape of the
aggregated result list). -/
def run_workers (firefox chrome : String) (gdev : Nat → String)
    (offsets : List Int) (worker : WorkerSpawn → ApplyResult) : List ApplyResult :=
  (run_workers_spawns firefox chrome gdev offsets).map worker

/-!
Supporting lemmas (shared; none of them is a claim theorem, witness or
counterexample).
-/

lemma today_midnight_le (cur : Int) : today_midnight cur ≤ cur := by
  have h := Int.emod_nonneg cur (by decide : USEC_PER_DAY ≠ 0)
  unfold today_midnight
  omega

lemma lt_today_midnight_add (cur : Int) : cur < today_midnight cur + USEC_PER_DAY := by
  have h := Int.emod_lt_of_pos cur (by decide : 0 < USEC_PER_DAY)
  unfold today_midnight
  omega

lemma sync_ntp_loop_first_success (request : String → Except String Int) :
    ∀ (pre : List String), (∀ s ∈ pre, ∃ e, request s = Except.error e) →
      ∀ (srv : String) (rest : List String) (tx : Int) (acc : String),
        request srv = Except.ok tx →
        sync_ntp_loop request (pre ++ srv :: rest) acc =
          { success := true, beijing_time := Option.some (toBeijing tx), server := srv,
            error := "" } := by
  intro pre
  induction pre with
  | nil =>
    intro _ srv rest tx acc hsrv
    simp [sync_ntp_loop, hsrv]
  | cons hd tl ih =>
    intro hpre srv rest tx acc hsrv
    obtain ⟨e, he⟩ := hpre hd (List.mem_cons_self hd tl)
    simp only [List.cons_append, sync_ntp_loop, he]
    exact ih (fun s hs => hpre s (List.mem_cons_of_mem hd hs)) srv rest tx e hsrv

lemma sync_ntp_loop_all_fail (request : String → Except String Int) :
    ∀ (init : List String), (∀ s ∈ init, ∃ e, request s = Except.error e) →
      ∀ (s_last e_last : String) (acc : String),
        request s_last = Except.error e_last →
        sync_ntp_loop request (init ++ [s_last]) acc =
          { success := false, beijing_time := Option.none, server := "", error := e_last } := by
  intro init
  induction init with
  | nil =>
    intro _ s_last e_last acc hlast
    simp [sync_ntp_loop, hlast]
  | cons hd tl ih =>
    intro hinit s_last e_last acc hlast
    obtain ⟨e, he⟩ := hinit hd (List.mem_cons_self hd tl)
    simp only [List.cons_append, sync_ntp_loop, he]
    exact ih (fun s hs => hinit s (List.mem_cons_of_mem hd hs)) s_last e_last e hlast

/-!
Claim theorems.
-/

/-- C1: the claim states both classifiers are total on every payload and in
particular map `{code: 0, data: null}` and `{code: 0}` to a Rejected verdict
whose message embeds "unexpected". The code violates this: on `data: null`,
`data.get("data", {})` yields `None` (the default applies only when the key
is absent) and the subsequent `.get` raises `AttributeError` in both
classifiers. The missing-key variant does fall through to the
"Unexpected response" Rejected verdict as claimed. -/
theorem c1_classifiers_crash_on_null_data :
    parse_apply_response [("code", PyVal.int 0), ("data", PyVal.none)] =
      Except.error PyErr.attributeError ∧
    parse_status_response [("code", PyVal.int 0), ("data", PyVal.none)] =
      Except.error PyErr.attributeError ∧
    parse_apply_response [("code", PyVal.int 0)] =
      Except.ok ("Unexpected response: code=0", Option.some false) ∧
    pyIn "unexpected" (pyLower "Unexpected response: code=0") = true := by
  refine ⟨rfl, rfl, rfl, ?_⟩
  decide

/-- C2: the claim states `run_workers` validates `len(offsets)` against the
expected worker count and on a mismatch starts no worker and returns no
partial result list. The code has no such check: `zip` silently truncates,
so with 2 offsets it dispatches exactly 2 workers and returns a 2-element
(partial) result list. -/
theorem c2_run_workers_truncates_short_offsets :
    (run_workers_spawns "ff_tok" "ch_tok" (fun n => toString n) [1400, 900]).length = 2 ∧
    (run_workers "ff_tok" "ch_tok" (fun n => toString n) [1400, 900]
        (fun s => ⟨s.wid, Option.none, 0, "", []⟩)).length = 2 :=
  ⟨rfl, rfl⟩

/-- C3: `calc_target_time` keeps today's boundary exactly when the time
elapsed since the start of the current calendar day is strictly below the
retry window, selects tomorrow's boundary otherwise (equality included),
and for every `offset_ms ≥ 0` and now strictly inside
`(todayBoundary, todayBoundary + window)` returns
`(todayBoundary − offset, todayBoundary + window)`. -/
theorem c3_calc_target_time_boundary_rule (cur offset_ms : Int) :
    (cur - today_midnight cur < retry_window_us →
      calc_target_time cur offset_ms =
        (today_midnight cur - offset_ms * 1000, today_midnight cur + retry_window_us)) ∧
    (retry_window_us ≤ cur - today_midnight cur →
      calc_target_time cur offset_ms =
        (today_midnight cur + USEC_PER_DAY - offset_ms * 1000,
         today_midnight cur + USEC_PER_DAY + retry_window_us)) ∧
    (0 ≤ offset_ms → today_midnight cur < cur → cur < today_midnight cur + retry_window_us →
      calc_target_time cur offset_ms =
        (today_midnight cur - offset_ms * 1000, today_midnight cur + retry_window_us)) := by
  refine ⟨fun h => ?_, fun h => ?_, fun _ h1 h2 => ?_⟩
  · simp [calc_target_time, if_pos h]
  · simp [calc_target_time, if_neg (not_lt.mpr h)]
  · have h : cur - today_midnight cur < retry_window_us := by omega
    simp [calc_target_time, if_pos h]

/-- Witness for C3 at `cur` = 10 s after midnight, `offset_ms` = 500. -/
theorem c3_witness :
    (10000000 : Int) - today_midnight 10000000 < retry_window_us ∧
    calc_target_time 10000000 500 =
      (today_midnight 10000000 - 500 * 1000, today_midnight 10000000 + retry_window_us) :=
  ⟨by decide, (c3_calc_target_time_boundary_rule 10000000 500).1 (by decide)⟩

/-- C4: the claim states `parse_apply_response` yields Approved iff the code
is 0 and the nested result is 1 (whatever other fields are present), and
that every other payload — null nested data included — yields Rejected,
Uncertain or the retryable signal, never Approved. The Approved-only-if
direction and the code-0/result-1 sufficiency hold (first two conjuncts),
but a payload with `data: null` raises `AttributeError` instead of yielding
any verdict, so the "every other payload yields a verdict" half fails. -/
theorem c4_apply_approved_iff_and_null_crash :
    parse_apply_response
      [("code", PyVal.int 0),
       ("data", PyVal.dict [("apply_result", PyVal.int 1), ("junk", PyVal.str "z")])] =
      Except.ok ("Approved!", Option.some true) ∧
    (∀ (data : PyDict) (msg : String),
      parse_apply_response data = Except.ok (msg, Option.some true) →
        (lookupD data "code" PyVal.none).eqInt 0 = true ∧
        (lookupD data "data" (PyVal.dict [])).get "apply_result" PyVal.none =
          Except.ok (PyVal.int 1)) ∧
    parse_apply_response [("code", PyVal.int 0), ("data", PyVal.none), ("extra", PyVal.str "x")] =
      Except.error PyErr.attributeError := by
  refine ⟨rfl, ?_, rfl⟩
  intro data msg h
  simp only [parse_apply_response] at h
  split at h
  · simp at h
  · rename_i res hres
    by_cases hb : ((lookupD data "code" PyVal.none).eqInt 0 && res.eqInt 1) = true
    · simp only [Bool.and_eq_true] at hb
      refine ⟨hb.1, ?_⟩
      rw [hres]
      have h1 := hb.2
      rcases res with _ | m | s | kvs <;> simp [PyVal.eqInt] at h1
      rw [h1]
    · rw [if_neg hb] at h
      exfalso
      split at h
      · split at h <;> simp_all
      · split at h
        · split at h <;> simp_all
        · split at h
          · simp_all
          · split at h <;> simp_all

/-- C10: for every clock value and every nonnegative offset,
`calc_target_time` returns a target strictly before the deadline, and a
deadline strictly after the `synced_now()` value it observed. -/
theorem c10_calc_target_time_deadline_future (cur offset_ms : Int) (hoff : 0 ≤ offset_ms) :
    (calc_target_time cur offset_ms).1 < (calc_target_time cur offset_ms).2 ∧
    cur < (calc_target_time cur offset_ms).2 := by
  have h1 := today_midnight_le cur
  have h2 := lt_today_midnight_add cur
  have hw : retry_window_us = 30000000 := rfl
  have hd : USEC_PER_DAY = 86400000000 := rfl
  simp only [calc_target_time]
  split
  · constructor <;> [omega; omega]
  · rename_i hge
    constructor <;> omega

/-- Witness for C10 at `cur` = 50 s after midnight, `offset_ms` = 1400. -/
theorem c10_witness :
    (0 : Int) ≤ 1400 ∧
    ((calc_target_time 50000000 1400).1 < (calc_target_time 50000000 1400).2 ∧
      (50000000 : Int) < (calc_target_time 50000000 1400).2) :=
  ⟨by decide, c10_calc_target_time_deadline_future 50000000 1400 (by decide)⟩

/-- C5: `sync_ntp` tries the sources in order and returns at the first
success a result carrying that source's identifier and its timestamp
converted to Beijing time, regardless of the sources listed after it; if
every source fails it returns failure with the last error observed; and on
the empty source list it returns failure with the fixed sentinel error,
without raising. -/
theorem c5_sync_ntp_order_and_errors (request : String → Except String Int) :
    (∀ (pre : List String) (srv : String) (rest : List String) (tx : Int),
      (∀ s ∈ pre, ∃ e, request s = Except.error e) →
      request srv = Except.ok tx →
      sync_ntp request (pre ++ srv :: rest) =
        { success := true, beijing_time := Option.some (toBeijing tx), server := srv,
          error := "" }) ∧
    (∀ (init : List String) (s_last e_last : String),
      (∀ s ∈ init, ∃ e, request s = Except.error e) →
      request s_last = Except.error e_last →
      sync_ntp request (init ++ [s_last]) =
        { success := false, beijing_time := Option.none, server := "", error := e_last }) ∧
    sync_ntp request [] =
      { success := false, beijing_time := Option.none, server := "",
        error := "No NTP servers configured" } := by
  refine ⟨?_, ?_, rfl⟩
  · intro pre srv rest tx hpre hsrv
    have key := sync_ntp_loop_first_success request pre hpre srv rest tx "" hsrv
    cases pre with
    | nil => exact key
    | cons hd tl => exact key
  · intro init s_last e_last hinit hlast
    have key := sync_ntp_loop_all_fail request init hinit s_last e_last "" hlast
    cases init with
    | nil => exact key
    | cons hd tl => exact key

/-- Witness for C5: a request table where "bad1"/"bad2" fail and "good"
succeeds, exercising the first-success, all-fail and empty-list parts. -/
theorem c5_witness :
    sync_ntp (fun s => if s = "good" then Except.ok 0 else Except.error ("fail " ++ s))
        ["bad1", "good", "later"] =
      { success := true, beijing_time := Option.some (toBeijing 0), server := "good",
        error := "" } ∧
    sync_ntp (fun s => if s = "good" then Except.ok 0 else Except.error ("fail " ++ s))
        ["bad1", "bad2"] =
      { success := false, beijing_time := Option.none, server := "", error := "fail bad2" } ∧
    sync_ntp (fun s => if s = "good" then Except.ok 0 else Except.error ("fail " ++ s)) [] =
      { success := false, beijing_time := Option.none, server := "",
        error := "No NTP servers configured" } := by
  refine ⟨?_, ?_, ?_⟩
  · exact (c5_sync_ntp_order_and_errors _).1 ["bad1"] "good" ["later"] 0
      (by intro s hs; simp at hs; subst hs; exact ⟨"fail bad1", rfl⟩) rfl
  · exact (c5_sync_ntp_order_and_errors _).2.1 ["bad1"] "bad2" "fail bad2"
      (by intro s hs; simp at hs; subst hs; exact ⟨"fail bad1", rfl⟩) rfl
  · exact (c5_sync_ntp_order_and_errors _).2.2

/-- C8: `run_workers` with four offsets assigns tokens in the fixed
alternating pattern ff, ch, ff, ch, consults the device-id generator exactly
at its first two draws (one per credential), hands workers 1 and 3 the first
draw, workers 2 and 4 the second, and — whenever the two draws differ — the
two credentials' device identities differ. -/
theorem c8_run_workers_alternation (firefox chrome : String) (gdev : Nat → String)
    (o1 o2 o3 o4 : Int) (hg : gdev 0 ≠ gdev 1) :
    run_workers_spawns firefox chrome gdev [o1, o2, o3, o4] =
      [⟨1, firefox, o1, gdev 0⟩, ⟨2, chrome, o2, gdev 1⟩,
       ⟨3, firefox, o3, gdev 0⟩, ⟨4, chrome, o4, gdev 1⟩] ∧
    (∀ gdev' : Nat → String, gdev' 0 = gdev 0 → gdev' 1 = gdev 1 →
      run_workers_spawns firefox chrome gdev' [o1, o2, o3, o4] =
        run_workers_spawns firefox chrome gdev [o1, o2, o3, o4]) ∧
    ((run_workers_spawns firefox chrome gdev [o1, o2, o3, o4]).map WorkerSpawn.dev_id).getD 0 ""
        = ((run_workers_spawns firefox chrome gdev [o1, o2, o3, o4]).map
            WorkerSpawn.dev_id).getD 2 "" ∧
    ((run_workers_spawns firefox chrome gdev [o1, o2, o3, o4]).map WorkerSpawn.dev_id).getD 1 ""
        = ((run_workers_spawns firefox chrome gdev [o1, o2, o3, o4]).map
            WorkerSpawn.dev_id).getD 3 "" ∧
    ((run_workers_spawns firefox chrome gdev [o1, o2, o3, o4]).map WorkerSpawn.dev_id).getD 0 ""
        ≠ ((run_workers_spawns firefox chrome gdev [o1, o2, o3, o4]).map
            WorkerSpawn.dev_id).getD 1 "" := by
  refine ⟨rfl, ?_, rfl, rfl, ?_⟩
  · intro gdev' h0 h1
    simp [run_workers_spawns, h0, h1]
  · simpa [run_workers_spawns] using hg

/-- Witness for C8 with the repository's default offsets and a generator
whose first two draws differ. -/
theorem c8_witness :
    (fun n => toString n) 0 ≠ (fun n => toString n) 1 ∧
    run_workers_spawns "ff" "ch" (fun n => toString n) [1400, 900, 400, 100] =
      [⟨1, "ff", 1400, "0"⟩, ⟨2, "ch", 900, "1"⟩, ⟨3, "ff", 400, "0"⟩, ⟨4, "ch", 100, "1"⟩] :=
  ⟨by decide,
    (c8_run_workers_alternation "ff" "ch" (fun n => toString n) 1400 900 400 100 (by decide)).1⟩

/-- C6: a (non-dry-run) worker whose synced time is at or past the computed
deadline when the fire loop is first entered, with the stop signal unset,
returns a Rejected result whose message is the timeout message, with zero
attempts and zero network calls, leaving the stop signal unset. -/
theorem c6_run_worker_past_deadline_times_out (wid : Nat) (offset_ms : Int)
    (clock : Nat → Int) (posts gets : Nat → Except Unit PyDict)
    (spinFuel loopFuel j : Nat)
    (hspin : spin_wait clock (calc_target_time (clock 0) offset_ms).1 spinFuel 2 = Option.some j)
    (hdl : (calc_target_time (clock 0) offset_ms).2 ≤ clock j)
    (hfuel : 0 < loopFuel) :
    run_worker wid offset_ms clock posts gets false false spinFuel loopFuel =
      Option.some ⟨Except.ok ⟨wid, Option.some false, 0, "Timed out after 30s", []⟩, false, 0⟩ ∧
    pyIn "timed out" (pyLower "Timed out after 30s") = true := by
  constructor
  · obtain ⟨k, rfl⟩ : ∃ k, loopFuel = k + 1 := ⟨loopFuel - 1, by omega⟩
    simp only [run_worker, hspin]
    rw [if_neg Bool.false_ne_true]
    rw [fire_loop]
    rw [if_neg (fun hc : _ ∧ _ => absurd hc.1 (not_lt.mpr hdl))]
    rfl
  · decide

/-- C7: inside the fire loop, an Uncertain apply response followed by an
eligibility check behaves as claimed: ineligible with "Already approved" in
the message sets the stop signal and terminates Approved; ineligible for any
other reason terminates non-approved without setting the stop signal; still
eligible loops back to firing. -/
theorem c7_worker_verify_uncertain (wid : Nat) (clock : Nat → Int)
    (posts gets : Nat → Except Unit PyDict) (deadline : Int)
    (fuel i p g attempt net : Nat) (data sdata : PyDict) (msg : String) (st : StatusResult)
    (hc : clock i < deadline)
    (hp : posts p = Except.ok data)
    (ha : parse_apply_response data = Except.ok (msg, Option.none))
    (hg : gets g = Except.ok sdata)
    (hs : parse_status_response sdata = Except.ok st) :
    (st.eligible = false → pyIn "Already approved" st.message = true →
      fire_loop wid clock posts gets deadline (fuel + 1) i p g false attempt net =
        Option.some ⟨Except.ok ⟨wid, Option.some true, attempt + 1,
          msg ++ " → " ++ st.message, data⟩, true, net + 2⟩) ∧
    (st.eligible = false → pyIn "Already approved" st.message = false →
      fire_loop wid clock posts gets deadline (fuel + 1) i p g false attempt net =
        Option.some ⟨Except.ok ⟨wid, Option.none, attempt + 1,
          msg ++ " → " ++ st.message, data⟩, false, net + 2⟩) ∧
    (st.eligible = true →
      fire_loop wid clock posts gets deadline (fuel + 1) i p g false attempt net =
        fire_loop wid clock posts gets deadline fuel (i + 2) (p + 1) (g + 1) false (attempt + 1)
          (net + 2)) := by
  refine ⟨fun he hin => ?_, fun he hin => ?_, fun he => ?_⟩
  · rw [fire_loop, if_pos ⟨hc, rfl⟩]
    simp [hp, ha, hg, hs, he, hin]
  · rw [fire_loop, if_pos ⟨hc, rfl⟩]
    simp [hp, ha, hg, hs, he, hin]
  · rw [fire_loop, if_pos ⟨hc, rfl⟩]
    simp [hp, ha, hg, hs, he]

/-- Supporting lemma for C9: the fire loop never clears the stop signal, and
any loop exit whose `ApplyResult` is Rejected (`approved = some false`)
leaves the stop signal exactly as it was. -/
lemma fire_loop_stop_frame (wid : Nat) (clock : Nat → Int)
    (posts gets : Nat → Except Unit PyDict) (deadline : Int) :
    ∀ (fuel i p g : Nat) (stop : Bool) (attempt net : Nat) (wf : WorkerFinal),
      fire_loop wid clock posts gets deadline fuel i p g stop attempt net = Option.some wf →
      (stop = true → wf.stop = true) ∧
      (∀ r, wf.result = Except.ok r → r.approved = Option.some false → wf.stop = stop) := by
  intro fuel
  induction fuel with
  | zero =>
    intro i p g stop attempt net wf h
    simp [fire_loop] at h
  | succ k ih =>
    intro i p g stop attempt net wf h
    rw [fire_loop] at h
    split at h
    · rename_i hcond
      obtain ⟨-, hstop⟩ := hcond
      subst hstop
      split at h
      · exact ih _ _ _ _ _ _ _ h
      · split at h
        · exact ih _ _ _ _ _ _ _ h
        · injection h with h2
          subst h2
          exact ⟨by simp, by intro r hr; simp at hr⟩
        · injection h with h2
          subst h2
          refine ⟨by simp, ?_⟩
          intro r hr ha'
          simp at hr
          subst hr
          simp at ha'
        · injection h with h2
          subst h2
          exact ⟨by simp, fun r hr ha' => rfl⟩
        · split at h
          · exact ih _ _ _ _ _ _ _ h
          · split at h
            · exact ih _ _ _ _ _ _ _ h
            · split at h
              · injection h with h2
                subst h2
                refine ⟨by simp, ?_⟩
                intro r hr ha'
                simp at hr
                subst hr
                simp at ha'
              · exact ih _ _ _ _ _ _ _ h
    · rename_i hcond
      split at h
      · rename_i hstop
        injection h with h2
        subst h2
        refine ⟨fun _ => hstop, ?_⟩
        intro r hr ha'
        simp at hr
        subst hr
        simp at ha'
      · injection h with h2
        subst h2
        exact ⟨fun h' => h', fun r hr ha' => rfl⟩

/-- C9: a `run_worker` execution that returns a Rejected result
(`approved = some false`) leaves the stop signal exactly as it found it, and
no execution ever clears a set stop signal (the worker's only write is the
single set on approval; `run_workers` itself only creates the event). -/
theorem c9_run_worker_stop_frame (wid : Nat) (offset_ms : Int) (clock : Nat → Int)
    (posts gets : Nat → Except Unit PyDict) (stop₀ dry_run : Bool) (spinFuel loopFuel : Nat)
    (wf : WorkerFinal)
    (h : run_worker wid offset_ms clock posts gets stop₀ dry_run spinFuel loopFuel =
      Option.some wf) :
    (stop₀ = true → wf.stop = true) ∧
    (∀ r, wf.result = Except.ok r → r.approved = Option.some false → wf.stop = stop₀) := by
  simp only [run_worker] at h
  split at h
  · simp at h
  · split at h
    · injection h with h2
      subst h2
      refine ⟨fun h' => h', ?_⟩
      intro r hr ha'
      simp at hr
      subst hr
      simp at ha'
    · exact fire_loop_stop_frame wid clock posts gets _ loopFuel _ 0 0 stop₀ 0 0 wf h

/-- Witness for C6: a scripted clock that starts 50 s after midnight (so the
race targets the next midnight) and then jumps past the deadline; the worker
returns the Rejected timeout result with zero attempts and no network call. -/
theorem c6_witness :
    spin_wait (fun n => if n = 0 then 50000000 else 86431000000)
        (calc_target_time ((fun n : Nat => (if n = 0 then 50000000 else 86431000000 : Int)) 0)
          0).1 1 2 = Option.some 3 ∧
    (calc_target_time ((fun n : Nat => (if n = 0 then 50000000 else 86431000000 : Int)) 0) 0).2 ≤
      (fun n : Nat => (if n = 0 then 50000000 else 86431000000 : Int)) 3 ∧
    run_worker 1 0 (fun n => if n = 0 then 50000000 else 86431000000)
        (fun _ => Except.error ()) (fun _ => Except.error ()) false false 1 1 =
      Option.some ⟨Except.ok ⟨1, Option.some false, 0, "Timed out after 30s", []⟩, false, 0⟩ :=
  ⟨rfl, by decide,
    (c6_run_worker_past_deadline_times_out 1 0 (fun n => if n = 0 then 50000000 else 86431000000)
      (fun _ => Except.error ()) (fun _ => Except.error ()) 1 1 3 rfl (by decide) (by decide)).1⟩

/-- Witness for C7: an Uncertain (code 100003) apply response followed by an
"already approved" status check terminates Approved and sets the stop
signal. -/
theorem c7_witness :
    fire_loop 1 (fun _ => 0) (fun _ => Except.ok [("code", PyVal.int 100003)])
      (fun _ => Except.ok [("code", PyVal.int 0),
        ("data", PyVal.dict [("is_pass", PyVal.int 1),
          ("deadline_format", PyVal.str "2026-03-01")])])
      1 1 0 0 0 false 0 0 =
    Option.some ⟨Except.ok ⟨1, Option.some true, 1,
      "Possibly approved (100003) → Already approved — unlock available until 2026-03-01",
      [("code", PyVal.int 100003)]⟩, true, 2⟩ :=
  (c7_worker_verify_uncertain 1 (fun _ => 0) (fun _ => Except.ok [("code", PyVal.int 100003)])
      (fun _ => Except.ok [("code", PyVal.int 0),
        ("data", PyVal.dict [("is_pass", PyVal.int 1),
          ("deadline_format", PyVal.str "2026-03-01")])])
      1 0 0 0 0 0 0 [("code", PyVal.int 100003)]
      [("code", PyVal.int 0),
        ("data", PyVal.dict [("is_pass", PyVal.int 1),
          ("deadline_format", PyVal.str "2026-03-01")])]
      "Possibly approved (100003)"
      ⟨false, "Already approved — unlock available until 2026-03-01",
        [("code", PyVal.int 0),
          ("data", PyVal.dict [("is_pass", PyVal.int 1),
            ("deadline_format", PyVal.str "2026-03-01")])]⟩
      (by decide) rfl rfl rfl rfl).1 rfl (by decide)

/-- Witness for C9: a timed-out run (Rejected result) whose final stop value
equals the initial one (false). -/
theorem c9_witness :
    run_worker 2 0 (fun n => if n = 0 then 50000000 else 86431000000)
        (fun _ => Except.error ()) (fun _ => Except.error ()) false false 1 1 =
      Option.some ⟨Except.ok ⟨2, Option.some false, 0, "Timed out after 30s", []⟩, false, 0⟩ ∧
    (⟨Except.ok ⟨2, Option.some false, 0, "Timed out after 30s", []⟩, false, 0⟩ :
      WorkerFinal).stop = false :=
  ⟨rfl,
    (c9_run_worker_stop_frame 2 0 (fun n => if n = 0 then 50000000 else 86431000000)
        (fun _ => Except.error ()) (fun _ => Except.error ()) false false 1 1
        ⟨Except.ok ⟨2, Option.some false, 0, "Timed out after 30s", []⟩, false, 0⟩ rfl).2
      ⟨2, Option.some false, 0, "Timed out after 30s", []⟩ rfl rfl⟩
